import Mathlib

/-!
Shallow embedding of the Eclipse-Database license system
(`licenses/models.py`, `licenses/services.py`, and the key-codec utils
imported as `licenses.utils`).

Strings that carry only status/message content are Lean `String`s; the
license key itself is a `List Char` so that the codec's character-level
operations (dash grouping, dash stripping, upper-casing) are directly
expressible.  Timestamps are integers; `timedelta(days=d)` is integer
addition, which preserves the only structure the code uses (addition and
order comparison).
-/

/-! ## Key codec (`generate_license_key`, `validate_license_key_format`) -/

/-- The base32 alphabet used by `base64.b32encode` (RFC 4648). -/
def base32Alphabet : List Char :=
  ['A','B','C','D','E','F','G','H','I','J','K','L','M',
   'N','O','P','Q','R','S','T','U','V','W','X','Y','Z',
   '2','3','4','5','6','7']

/-- The eight bits of a byte, most significant first. -/
def byteBits (b : Nat) : List Bool :=
  [b.testBit 7, b.testBit 6, b.testBit 5, b.testBit 4,
   b.testBit 3, b.testBit 2, b.testBit 1, b.testBit 0]

/-- Value of a big-endian bit string. -/
def bitsVal : List Bool → Nat
  | [] => 0
  | b :: rest => (if b then 1 else 0) * 2 ^ rest.length + bitsVal rest

/-- Python's `seq[5*i : 5*i+5]` chunking, mirroring
`[key[i:i+5] for i in range(0, len(key), 5)]`:
`(l.length + 4) / 5` is the number of indices in `range(0, len, 5)`. -/
def pyChunks5 {α : Type} (l : List α) : List (List α) :=
  (List.range ((l.length + 4) / 5)).map (fun i => ((l.drop (5 * i)).take 5))

/-- One base32 output character: a (zero-right-padded) group of at most five
bits indexed into the alphabet. -/
def b32group (g : List Bool) : Char :=
  base32Alphabet.getD (bitsVal g * 2 ^ (5 - g.length)) 'A'

/-- Number of `=` padding characters appended by `base64.b32encode`. -/
def b32padLen (nBytes : Nat) : Nat :=
  match nBytes % 5 with
  | 1 => 6
  | 2 => 4
  | 3 => 3
  | 4 => 1
  | _ => 0

/-- `base64.b32encode(bytes).decode('utf-8')` over a byte list. -/
def b32encode (bytes : List Nat) : List Char :=
  (pyChunks5 (bytes.flatMap byteBits)).map b32group
    ++ List.replicate (b32padLen bytes.length) '='

/-- `'-'.join(parts)` over character-list parts. -/
def dashJoin : List (List Char) → List Char
  | [] => []
  | [p] => p
  | p :: rest => p ++ '-' :: dashJoin rest

/-- `generate_license_key(prefix, secret, user_id, license_type_id)`.

The function's randomness and crypto (fresh `jti`, `iat` timestamp, the
16-character random seed, the HS256 JWT over the caller's secret, and
`hashlib.sha256`) reach the returned string only through
`sha256(jwt_token).digest()`, a 32-byte digest; the embedding therefore
takes that digest as the parameter `digest` (universally quantified in the
theorems, with the hypothesis `digest.length = 32` that SHA-256
guarantees).  After it, the source computes
`key = b32encode(digest)[:25].upper()`, prepends `f"{prefix}-"` when
`prefix` is truthy, and regroups into dash-joined 5-character blocks. -/
def generate_license_key (pfx : Option (List Char)) (digest : List Nat) :
    List Char :=
  let key := ((b32encode digest).take 25).map Char.toUpper
  let key :=
    match pfx with
    | some p => if p ≠ [] then p ++ '-' :: key else key
    | none => key
  dashJoin (pyChunks5 key)

/-- `c in (string.ascii_uppercase + string.digits)`. -/
def validChar (c : Char) : Bool :=
  ('A' ≤ c && c ≤ 'Z') || ('0' ≤ c && c ≤ '9')

/-- `validate_license_key_format(key)`: strip dashes, upper-case, then
require every character uppercase-alphanumeric and `20 <= len <= 30`. -/
def validate_license_key_format (key : List Char) : Bool :=
  let key_clean := (key.filter (fun c => c ≠ '-')).map Char.toUpper
  key_clean.all validChar
    && decide (20 ≤ key_clean.length) && decide (key_clean.length ≤ 30)

/-! ## Data model (`licenses/models.py`) -/

/-- `LicenseType` model: only the fields the core logic reads. -/
structure LicenseType where
  name : String
  duration_days : Int
  deriving DecidableEq, Repr

/-- One `LicenseCheck` audit row as created by the entity transitions
(`ip_address`/`user_agent` are never set by the core logic). -/
structure LicenseCheck where
  status : String
  hardware_id : Option String
  message : Option String
  deriving DecidableEq, Repr

/-- `License` model.  `license_type` is a non-null foreign key, hence a
plain field; nullable columns are `Option`s. -/
structure License where
  key : List Char
  license_type : LicenseType
  status : String
  created_at : Int
  expires_at : Option Int
  last_checked : Option Int
  activation_date : Option Int
  hardware_id : Option String
  max_activations : Int
  notes : Option String
  deriving DecidableEq, Repr

/-- Python truthiness of an optional string (`None` and `""` are falsy). -/
def truthyStr : Option String → Bool
  | none => false
  | some s => s ≠ ""

/-- `self.expires_at and self.expires_at < timezone.now()` (a `None`
datetime is falsy, a set one always truthy). -/
def pastExpiry (l : License) (now : Int) : Bool :=
  match l.expires_at with
  | some e => e < now
  | none => false

/-- `License.save(...)` as a pure state transformer (the Django
`super().save()` persists the resulting record; persistence itself is
tracked by the callers below).  First clause: if `expires_at` is unset,
derive it from `activation_date` (or `timezone.now()`) plus
`license_type.duration_days`.  Second clause: lazily downgrade to
`expired` when past expiry and not revoked. -/
def License.save (now : Int) (l : License) : License :=
  let l :=
    if l.expires_at = none then
      match l.activation_date with
      | some ad =>
          { l with expires_at := some (ad + l.license_type.duration_days) }
      | none =>
          { l with expires_at := some (now + l.license_type.duration_days) }
    else l
  match l.expires_at with
  | some e =>
      if e < now ∧ l.status ≠ "revoked" then { l with status := "expired" }
      else l
  | none => l

/-- Result of one entity transition: the in-memory object after the call,
the returned boolean, the successive License states actually persisted
(one entry per `self.save()` call, in order), and the audit rows created
(one per `LicenseCheck.objects.create`). -/
structure OpResult where
  lic : License
  ok : Bool
  writes : List License
  checks : List LicenseCheck
  deriving DecidableEq, Repr

/-- `License.activate(hardware_id)`: unless revoked, set status `active`,
stamp `activation_date = now`, recompute `expires_at`, overwrite
`hardware_id` when a truthy one is supplied, save, and log `activated`. -/
def License.activate (now : Int) (hw : Option String) (l : License) :
    OpResult :=
  if l.status ≠ "revoked" then
    let l := { l with
      status := "active"
      activation_date := some now
      expires_at := some (now + l.license_type.duration_days) }
    let l := if truthyStr hw then { l with hardware_id := hw } else l
    let l := l.save now
    ⟨l, true, [l], [⟨"activated", hw, none⟩]⟩
  else ⟨l, false, [], []⟩

/-- `License.deactivate()`: only an `active` license goes back to
`pending`; saves and logs `deactivated`. -/
def License.deactivate (now : Int) (l : License) : OpResult :=
  if l.status = "active" then
    let l := ({ l with status := "pending" } : License).save now
    ⟨l, true, [l], [⟨"deactivated", none, none⟩]⟩
  else ⟨l, false, [], []⟩

/-- `License.revoke()`: unconditionally set `revoked`, save, log
`revoked`, return `True`. -/
def License.revoke (now : Int) (l : License) : OpResult :=
  let l := ({ l with status := "revoked" } : License).save now
  ⟨l, true, [l], [⟨"revoked", none, none⟩]⟩

/-- `License.validate_license(hardware_id)`: stamp `last_checked`; fail
(and persist the downgrade) when past expiry; fail without persisting
when not active or on a hardware mismatch; otherwise save and log
`check_success`. -/
def License.validate_license (now : Int) (hw : Option String)
    (l : License) : OpResult :=
  let l := { l with last_checked := some now }
  if pastExpiry l now then
    let l := ({ l with status := "expired" } : License).save now
    ⟨l, false, [l], [⟨"check_failed", hw, some "License expired"⟩]⟩
  else if l.status ≠ "active" then
    ⟨l, false, [],
      [⟨"check_failed", hw,
        some ("License not active, status: " ++ l.status)⟩]⟩
  else if truthyStr hw && truthyStr l.hardware_id && hw ≠ l.hardware_id then
    ⟨l, false, [], [⟨"check_failed", hw, some "Hardware ID mismatch"⟩]⟩
  else
    let l := l.save now
    ⟨l, true, [l], [⟨"check_success", hw, none⟩]⟩

/-! ## Service layer (`licenses/services.py`)

Database lookups (`License.objects.get(key=key)`,
`LicenseType.objects.get(id=...)`) are modelled by an `Option` argument:
`some` is the fetched row, `none` raises `DoesNotExist`, which every
operation except `create_license` catches and turns into a structured
result. -/

/-- `{'success': bool, 'message': str}` plus the optional `license_data`
payload of `activate_license` (`key`, `status`, `expires_at`,
`license_type` name). -/
structure SvcResult where
  success : Bool
  message : String
  license_data : Option (List Char × String × Option Int × String) := none
  deriving DecidableEq, Repr

/-- The validation result dict of `LicenseService.validate_license`. -/
structure ValidationResult where
  valid : Bool
  message : String
  license_type : Option String := none
  expires_at : Option Int := none
  status : Option String := none
  deriving DecidableEq, Repr

/-- Outcome of a service call: the structured result, plus the License
states persisted and audit rows created while handling it. -/
structure SvcOut (ρ : Type) where
  res : ρ
  lic : Option License
  writes : List License
  checks : List LicenseCheck
  deriving Repr

/-- `LicenseService.create_license(license_type_id, user, prefix,
max_activations, notes)`.  `lt?` is the `LicenseType.objects.get`
result; on `DoesNotExist` the source RAISES
`ValueError(f"License type with ID {license_type_id} does not exist")`
(modelled as `Except.error`).  Otherwise it generates a key and persists
a new row via `License.objects.create` (which calls `save`), with the
model defaults `status='pending'`, nullable fields unset. -/
def LicenseService.create_license (now : Int) (license_type_id : Nat)
    (lt? : Option LicenseType) (pfx : Option (List Char))
    (digest : List Nat) (max_activations : Int) (notes : Option String) :
    Except String License :=
  match lt? with
  | none =>
      Except.error
        ("License type with ID " ++ toString license_type_id
          ++ " does not exist")
  | some lt =>
      let key := generate_license_key pfx digest
      Except.ok (License.save now
        { key := key
          license_type := lt
          status := "pending"
          created_at := now
          expires_at := none
          last_checked := none
          activation_date := none
          hardware_id := none
          max_activations := max_activations
          notes := notes })

/-- `LicenseService.validate_license(key, hardware_id)`: format check,
lookup, delegate to the entity transition, shape the dict. -/
def LicenseService.validate_license (now : Int) (key : List Char)
    (lic? : Option License) (hw : Option String) :
    SvcOut ValidationResult :=
  if ¬ validate_license_key_format key then
    ⟨{ valid := false, message := "Invalid license key format" },
      lic?, [], []⟩
  else
    match lic? with
    | none =>
        ⟨{ valid := false, message := "License key does not exist" },
          none, [], []⟩
    | some l =>
        let r := l.validate_license now hw
        if ¬ r.ok then
          ⟨{ valid := false
             message := "License check failed: " ++ r.lic.status
             status := some r.lic.status },
            some r.lic, r.writes, r.checks⟩
        else
          ⟨{ valid := true
             message := "License is valid"
             license_type := some r.lic.license_type.name
             expires_at := r.lic.expires_at
             status := some r.lic.status },
            some r.lic, r.writes, r.checks⟩

/-- `LicenseService.activate_license(key, hardware_id)`: reject
`active`/`revoked`/`expired` up front, then delegate to
`License.activate`. -/
def LicenseService.activate_license (now : Int) (lic? : Option License)
    (hw : Option String) : SvcOut SvcResult :=
  match lic? with
  | none =>
      ⟨{ success := false, message := "License key does not exist" },
        none, [], []⟩
  | some l =>
      if l.status = "active" then
        ⟨{ success := false, message := "License is already active" },
          some l, [], []⟩
      else if l.status = "revoked" then
        ⟨{ success := false
           message := "License has been revoked and cannot be activated" },
          some l, [], []⟩
      else if l.status = "expired" then
        ⟨{ success := false
           message := "License has expired and cannot be activated" },
          some l, [], []⟩
      else
        let r := l.activate now hw
        if ¬ r.ok then
          ⟨{ success := false, message := "Failed to activate license" },
            some r.lic, r.writes, r.checks⟩
        else
          ⟨{ success := true
             message := "License activated successfully"
             license_data := some
               (r.lic.key, r.lic.status, r.lic.expires_at,
                r.lic.license_type.name) },
            some r.lic, r.writes, r.checks⟩

/-- `LicenseService.deactivate_license(key)`. -/
def LicenseService.deactivate_license (now : Int) (lic? : Option License) :
    SvcOut SvcResult :=
  match lic? with
  | none =>
      ⟨{ success := false, message := "License key does not exist" },
        none, [], []⟩
  | some l =>
      if l.status ≠ "active" then
        ⟨{ success := false
           message := "License is not active (current status: "
             ++ l.status ++ ")" },
          some l, [], []⟩
      else
        let r := l.deactivate now
        if ¬ r.ok then
          ⟨{ success := false, message := "Failed to deactivate license" },
            some r.lic, r.writes, r.checks⟩
        else
          ⟨{ success := true
             message := "License deactivated successfully" },
            some r.lic, r.writes, r.checks⟩

/-- `LicenseService.revoke_license(key, reason)`: refuse when already
revoked; otherwise call the entity transition and, when a truthy reason
is given, append it to `notes` and save again. -/
def LicenseService.revoke_license (now : Int) (lic? : Option License)
    (reason : Option String) : SvcOut SvcResult :=
  match lic? with
  | none =>
      ⟨{ success := false, message := "License key does not exist" },
        none, [], []⟩
  | some l =>
      if l.status = "revoked" then
        ⟨{ success := false, message := "License is already revoked" },
          some l, [], []⟩
      else
        let r := l.revoke now
        if truthyStr reason then
          let l2 := ({ r.lic with
            notes := some ((r.lic.notes.getD "") ++ "\nRevoked: "
              ++ reason.getD "") } : License).save now
          ⟨{ success := true, message := "License revoked successfully" },
            some l2, r.writes ++ [l2], r.checks⟩
        else
          ⟨{ success := true, message := "License revoked successfully" },
            some r.lic, r.writes, r.checks⟩

/-- `LicenseService.get_license_info(key)`: read-only projection; only
its NotFound shape matters to the claims. -/
def LicenseService.get_license_info (lic? : Option License) :
    SvcOut SvcResult :=
  match lic? with
  | none =>
      ⟨{ success := false, message := "License key does not exist" },
        none, [], []⟩
  | some l =>
      ⟨{ success := true
         message := ""
         license_data := some
           (l.key, l.status, l.expires_at, l.license_type.name) },
        some l, [], []⟩

/-! ## Codec lemmas -/

theorem getD_mem_or {α : Type} (l : List α) (n : Nat) (d : α) :
    l.getD n d ∈ l ∨ l.getD n d = d := by
  induction l generalizing n with
  | nil => right; rfl
  | cons a t ih =>
    cases n with
    | zero => left; rw [List.getD_cons_zero]; exact List.mem_cons_self a t
    | succ m =>
      rw [List.getD_cons_succ]
      rcases ih m with h | h
      · left; exact List.mem_cons_of_mem _ h
      · right; exact h

/-- Characters the base32 encoder can emit for a data group: uppercase
alphanumeric, not a dash, and fixed points of `Char.toUpper`. -/
def goodKeyChar (c : Char) : Bool :=
  validChar c && (c != '-') && (c.toUpper == c)

theorem goodKeyChar_valid {c : Char} (h : goodKeyChar c = true) :
    validChar c = true := by
  simp [goodKeyChar, Bool.and_eq_true] at h
  exact h.1.1

theorem goodKeyChar_ne_dash {c : Char} (h : goodKeyChar c = true) :
    c ≠ '-' := by
  simp [goodKeyChar, Bool.and_eq_true] at h
  exact h.1.2

theorem goodKeyChar_toUpper {c : Char} (h : goodKeyChar c = true) :
    c.toUpper = c := by
  simp [goodKeyChar, Bool.and_eq_true] at h
  exact h.2

theorem b32group_good (g : List Bool) : goodKeyChar (b32group g) = true := by
  unfold b32group
  rcases getD_mem_or base32Alphabet (bitsVal g * 2 ^ (5 - g.length)) 'A'
    with h | h
  · have hall : base32Alphabet.all goodKeyChar = true := by decide
    exact List.all_eq_true.mp hall _ h
  · rw [h]; decide

theorem flatMap_byteBits_length (bs : List Nat) :
    (bs.flatMap byteBits).length = 8 * bs.length := by
  induction bs with
  | nil => rfl
  | cons b t ih =>
    rw [List.flatMap_cons, List.length_append, ih, List.length_cons]
    simp [byteBits]
    ring

theorem pyChunks5_length {α : Type} (l : List α) :
    (pyChunks5 l).length = (l.length + 4) / 5 := by
  simp [pyChunks5]

theorem pyChunks5_flatten_aux {α : Type} :
    ∀ (n : Nat) (l : List α), (l.length + 4) / 5 = n →
      ((List.range n).map (fun i => ((l.drop (5 * i)).take 5))).flatten
        = l := by
  intro n
  induction n with
  | zero =>
    intro l h
    have hl : l.length = 0 := by omega
    rw [List.length_eq_zero.mp hl]
    rfl
  | succ m ih =>
    intro l h
    rw [List.range_succ_eq_map, List.map_cons, List.map_map,
      List.flatten_cons]
    have hmap :
        List.map ((fun i => ((l.drop (5 * i)).take 5)) ∘ Nat.succ)
            (List.range m)
          = List.map (fun i => (((l.drop 5).drop (5 * i)).take 5))
            (List.range m) := by
      apply List.map_congr_left
      intro a _
      show ((l.drop (5 * (a + 1))).take 5) = _
      rw [List.drop_drop]
      congr 2
      omega
    have h5 : ((l.drop 5).length + 4) / 5 = m := by
      rw [List.length_drop]
      omega
    rw [hmap, ih (l.drop 5) h5]
    show (l.drop 0).take 5 ++ l.drop 5 = l
    rw [List.drop_zero, List.take_append_drop]

theorem pyChunks5_flatten {α : Type} (l : List α) :
    (pyChunks5 l).flatten = l :=
  pyChunks5_flatten_aux _ l rfl

theorem dashJoin_filter (parts : List (List Char)) :
    (dashJoin parts).filter (fun c => c ≠ '-')
      = parts.flatten.filter (fun c => c ≠ '-') := by
  induction parts with
  | nil => rfl
  | cons p rest ih =>
    cases rest with
    | nil => simp [dashJoin]
    | cons q rest2 =>
      show ((p ++ '-' :: dashJoin (q :: rest2)).filter (fun c => c ≠ '-'))
        = _
      rw [List.filter_append, List.filter_cons_of_neg (by decide), ih]
      simp [List.filter_append]

theorem b32_take25 (digest : List Nat) (h32 : digest.length = 32) :
    (b32encode digest).take 25
      = ((pyChunks5 (digest.flatMap byteBits)).map b32group).take 25 := by
  unfold b32encode
  apply List.take_append_of_le_length
  rw [List.length_map, pyChunks5_length, flatMap_byteBits_length, h32]
  decide

theorem b32encode_length (digest : List Nat) (h32 : digest.length = 32) :
    (b32encode digest).length = 56 := by
  unfold b32encode
  rw [List.length_append, List.length_map, pyChunks5_length,
    flatMap_byteBits_length, List.length_replicate, h32]
  rfl

theorem key25_good (digest : List Nat) (h32 : digest.length = 32) :
    (((b32encode digest).take 25).map Char.toUpper).all goodKeyChar
      = true := by
  rw [b32_take25 digest h32, List.all_eq_true]
  intro c hc
  rcases List.mem_map.mp hc with ⟨c2, hc2, rfl⟩
  have hc3 := List.take_subset _ _ hc2
  rcases List.mem_map.mp hc3 with ⟨g, _, rfl⟩
  rw [goodKeyChar_toUpper (b32group_good g)]
  exact b32group_good g

theorem key25_length (digest : List Nat) (h32 : digest.length = 32) :
    (((b32encode digest).take 25).map Char.toUpper).length = 25 := by
  rw [List.length_map, List.length_take, b32encode_length digest h32]
  rfl

theorem filter_of_good (k : List Char) (h : k.all goodKeyChar = true) :
    k.filter (fun c => c ≠ '-') = k := by
  rw [List.filter_eq_self]
  intro a ha
  have := goodKeyChar_ne_dash (List.all_eq_true.mp h a ha)
  simpa using this

theorem mapUpper_of_good (k : List Char) (h : k.all goodKeyChar = true) :
    k.map Char.toUpper = k := by
  conv_rhs => rw [← List.map_id k]
  apply List.map_congr_left
  intro a ha
  exact goodKeyChar_toUpper (List.all_eq_true.mp h a ha)

theorem valid_of_good (k : List Char) (h : k.all goodKeyChar = true) :
    k.all validChar = true := by
  rw [List.all_eq_true]
  intro a ha
  exact goodKeyChar_valid (List.all_eq_true.mp h a ha)

theorem validate_of_clean (k : List Char)
    (hall : ((k.filter (fun c => c ≠ '-')).map Char.toUpper).all validChar
      = true)
    (hlen1 : 20 ≤ ((k.filter (fun c => c ≠ '-')).map Char.toUpper).length)
    (hlen2 : ((k.filter (fun c => c ≠ '-')).map Char.toUpper).length ≤ 30) :
    validate_license_key_format k = true := by
  unfold validate_license_key_format
  simp only [hall, Bool.true_and, Bool.and_eq_true, decide_eq_true_eq]
  exact ⟨hlen1, hlen2⟩

/-! ## Generic facts about `License.save` -/

theorem save_fields (now : Int) (l : License) :
    (License.save now l).last_checked = l.last_checked
    ∧ (License.save now l).hardware_id = l.hardware_id
    ∧ (License.save now l).key = l.key
    ∧ (License.save now l).license_type = l.license_type
    ∧ (License.save now l).created_at = l.created_at
    ∧ (License.save now l).activation_date = l.activation_date
    ∧ (License.save now l).notes = l.notes
    ∧ (License.save now l).max_activations = l.max_activations := by
  obtain ⟨k, lt, st, ca, ea, lc, ad, hw, ma, no⟩ := l
  cases ea <;> cases ad <;> simp [License.save] <;> split_ifs <;> simp

/-- Status after a save: `expired` when the (possibly freshly derived)
expiry is past and the license is not revoked, otherwise unchanged. -/
theorem save_status (now : Int) (l : License) :
    (License.save now l).status
      = (if (match l.expires_at with
            | some e => e
            | none =>
                (match l.activation_date with
                  | some ad => ad
                  | none => now) + l.license_type.duration_days) < now
            ∧ l.status ≠ "revoked"
          then "expired" else l.status) := by
  obtain ⟨k, lt, st, ca, ea, lc, ad, hw, ma, no⟩ := l
  cases ea <;> cases ad <;> simp [License.save] <;> split_ifs <;> simp_all

/-- Expiry after a save: derived from `activation_date` (or `now`) when
unset, otherwise untouched. -/
theorem save_expires (now : Int) (l : License) :
    (License.save now l).expires_at
      = some (match l.expires_at with
          | some e => e
          | none =>
              (match l.activation_date with
                | some ad => ad
                | none => now) + l.license_type.duration_days) := by
  obtain ⟨k, lt, st, ca, ea, lc, ad, hw, ma, no⟩ := l
  cases ea <;> cases ad <;> simp [License.save] <;> split_ifs <;> simp_all

/-! ## Sample data for concrete instances -/

/-- A license type with a 30-day duration. -/
def sampleType : LicenseType := ⟨"Pro", 30⟩

/-- A freshly created pending license (model defaults). -/
def sampleLicense : License :=
  { key := ['K','E','Y']
    license_type := sampleType
    status := "pending"
    created_at := 0
    expires_at := none
    last_checked := none
    activation_date := none
    hardware_id := none
    max_activations := 1
    notes := none }

/-! ## Claims -/

set_option maxRecDepth 100000 in
/-- C2 (counterexample): the claim quantifies over ANY prefix, but a
six-character alphanumeric prefix already breaks the format check: the
cleaned key has `6 + 25 = 31 > 30` characters, so
`validate_format(generate(...))` is `false`.  The digest argument is a
legitimate 32-byte SHA-256 output shape, and the failure is independent
of its value (only lengths matter). -/
theorem C2_counterexample :
    (List.replicate 32 (0 : Nat)).length = 32
    ∧ validate_license_key_format
        (generate_license_key (some ['A','B','C','D','E','F'])
          (List.replicate 32 0)) = false :=
  ⟨rfl, rfl⟩

/-- C2 (amended): for every 32-byte digest (any secret, user id,
license-type id, fresh random identifier, timestamp and random seed enter
the key only through this digest), the generated key passes
`validate_license_key_format` PROVIDED the prefix is absent, or its
non-dash characters upper-case to uppercase-alphanumerics and number at
most five. -/
theorem C2_generate_validates (digest : List Nat) (h32 : digest.length = 32)
    (pfx : Option (List Char))
    (hp : match pfx with
      | none => True
      | some p =>
          ((p.filter (fun c => c ≠ '-')).map Char.toUpper).all validChar
              = true
            ∧ (p.filter (fun c => c ≠ '-')).length ≤ 5) :
    validate_license_key_format (generate_license_key pfx digest)
      = true := by
  have hgood := key25_good digest h32
  have hlen25 := key25_length digest h32
  cases pfx with
  | none =>
    simp only [generate_license_key]
    apply validate_of_clean <;>
      rw [dashJoin_filter, pyChunks5_flatten, filter_of_good _ hgood,
        mapUpper_of_good _ hgood]
    · exact valid_of_good _ hgood
    · omega
    · omega
  | some p =>
    obtain ⟨hp1, hp2⟩ := hp
    simp only [generate_license_key]
    by_cases hp0 : p = []
    · rw [if_neg (fun h => h hp0)]
      apply validate_of_clean <;>
        rw [dashJoin_filter, pyChunks5_flatten, filter_of_good _ hgood,
          mapUpper_of_good _ hgood]
      · exact valid_of_good _ hgood
      · omega
      · omega
    · rw [if_pos hp0]
      apply validate_of_clean <;>
        rw [dashJoin_filter, pyChunks5_flatten, List.filter_append,
          List.filter_cons_of_neg (by decide), filter_of_good _ hgood,
          List.map_append, mapUpper_of_good _ hgood]
      · rw [List.all_append, Bool.and_eq_true]
        exact ⟨hp1, valid_of_good _ hgood⟩
      · rw [List.length_append, List.length_map]
        omega
      · rw [List.length_append, List.length_map]
        omega

/-- C2 (witness): the amended theorem applied to a concrete 32-byte digest
and the three-character prefix `ECL`. -/
theorem C2_witness :
    validate_license_key_format
      (generate_license_key (some ['E','C','L']) (List.replicate 32 0))
      = true :=
  C2_generate_validates (List.replicate 32 0) rfl (some ['E','C','L'])
    ⟨by decide, by decide⟩

/-- C1: the spec says `revoked` is terminal and absorbing, but the code
breaks it: `validate_license` on a revoked license whose `expires_at` is
past stamps the status `expired` and persists it — the expiry branch in
`validate_license` lacks the `status != 'revoked'` guard that `save`
itself has, contradicting `revoke`'s own "permanently" contract. -/
theorem C1_revoked_not_absorbing :
    ({ sampleLicense with status := "revoked", expires_at := some 0 }
        : License).status = "revoked"
    ∧ (License.validate_license 1 none
        { sampleLicense with status := "revoked", expires_at := some 0 }
        ).lic.status = "expired"
    ∧ (License.validate_license 1 none
        { sampleLicense with status := "revoked", expires_at := some 0 }
        ).writes.map License.status = ["expired"] :=
  ⟨rfl, rfl, rfl⟩

/-- C3 (counterexample): validating a pending license (the "not-active
failure" outcome) stamps `last_checked` only on the in-memory object: the
call performs NO persistence (`self.save()` is not reached in the
not-active and hardware-mismatch branches), so "persists the License
record" fails for this outcome. -/
theorem C3_counterexample :
    (License.validate_license 1 none sampleLicense).lic.last_checked
        = some 1
    ∧ (License.validate_license 1 none sampleLicense).ok = false
    ∧ (License.validate_license 1 none sampleLicense).writes = [] :=
  ⟨rfl, rfl, rfl⟩

/-- C3 (amended): every `validate_license` call sets `last_checked = now`
on the in-memory object, but it persists the record exactly when the
expired-failure branch fires or the check succeeds; the not-active and
hardware-mismatch failures do not persist. -/
theorem C3_validate_persistence (l : License) (now : Int)
    (hw : Option String) :
    (License.validate_license now hw l).lic.last_checked = some now
    ∧ ((License.validate_license now hw l).writes ≠ []
        ↔ (pastExpiry l now = true
            ∨ (License.validate_license now hw l).ok = true)) := by
  have hpe : pastExpiry { l with last_checked := some now } now
      = pastExpiry l now := by simp [pastExpiry]
  simp only [License.validate_license]
  split_ifs with h1 h2 h3
  · refine ⟨(save_fields now _).1, ?_⟩
    simp [← hpe, h1]
  · exact ⟨rfl, by simp [← hpe, h1]⟩
  · exact ⟨rfl, by simp [← hpe, h1]⟩
  · refine ⟨(save_fields now _).1, ?_⟩
    simp

/-- C4 (counterexample): `activate` does NOT protect an existing binding:
on a license already bound to `"H1"`, activating with `"H2"` overwrites
the binding (the code has `if hardware_id: self.hardware_id =
hardware_id` with no "none bound yet" condition). -/
theorem C4_counterexample :
    ({ sampleLicense with hardware_id := some "H1" } : License).hardware_id
        = some "H1"
    ∧ (License.activate 5 (some "H2")
        { sampleLicense with hardware_id := some "H1" }).lic.hardware_id
        = some "H2" :=
  ⟨rfl, rfl⟩

/-- C4 (amended): on a non-revoked license, `activate` sets `hardware_id`
to the supplied value whenever that value is truthy (non-`None`,
non-empty), overwriting any existing binding; it leaves the binding
unchanged only when the supplied value is falsy or the license is
revoked. -/
theorem C4_activate_hardware (l : License) (now : Int)
    (hw : Option String) :
    (License.activate now hw l).lic.hardware_id
      = if l.status ≠ "revoked" ∧ truthyStr hw = true then hw
        else l.hardware_id := by
  by_cases h1 : l.status ≠ "revoked"
  · by_cases h2 : truthyStr hw = true
    · rw [if_pos ⟨h1, h2⟩]
      simp only [License.activate]
      rw [if_pos h1, if_pos h2]
      exact (save_fields now _).2.1
    · rw [if_neg (fun h => h2 h.2)]
      simp only [License.activate]
      rw [if_pos h1, if_neg h2]
      exact (save_fields now _).2.1
  · rw [if_neg (fun h => h1 h.1)]
    simp only [License.activate]
    rw [if_neg h1]

/-- C5: lazy expiry, exactly as claimed: any save of a license whose
`expires_at` is set and in the past and whose status is not `revoked`
stores status `expired`, whatever operation triggered the save. -/
theorem C5_lazy_expiry (l : License) (now e : Int)
    (he : l.expires_at = some e) (hlt : e < now)
    (hst : l.status ≠ "revoked") :
    (License.save now l).status = "expired" := by
  rw [save_status, he]
  simp only []
  rw [if_pos ⟨hlt, hst⟩]

/-- C5 (witness): a pending license with `expires_at = 0` saved at time 1
comes out `expired`. -/
theorem C5_witness :
    (License.save 1 { sampleLicense with expires_at := some 0 }).status
      = "expired" :=
  C5_lazy_expiry { sampleLicense with expires_at := some 0 } 1 0 rfl
    (by decide) (by decide)

/-- A save of an already-revoked license keeps status `revoked` (the
expiry downgrade is guarded by `status != 'revoked'`). -/
theorem save_revoked (now : Int) (l : License) (h : l.status = "revoked") :
    (License.save now l).status = "revoked" := by
  rw [save_status, if_neg (fun hh => hh.2 h)]
  exact h

/-- An active license bound to `"H1"` whose expiry has passed. -/
def expiredBoundLicense : License :=
  { sampleLicense with
      status := "active"
      hardware_id := some "H1"
      expires_at := some 0 }

/-- C6 (counterexample): for an ACTIVE license bound to `"H1"` whose
`expires_at` is already past, validating with the different non-empty id
`"H2"` does fail, but the recorded audit entry says "License expired",
not "Hardware ID mismatch" — the expiry branch runs first, so the
claimed mismatch entry is never recorded for this active license. -/
theorem C6_counterexample :
    expiredBoundLicense.status = "active"
    ∧ expiredBoundLicense.hardware_id = some "H1"
    ∧ ("H2" : String) ≠ "H1"
    ∧ ((License.validate_license 1 (some "H2")
          expiredBoundLicense).checks.any
        (fun c => c.message == some "Hardware ID mismatch")) = false
    ∧ (License.validate_license 1 (some "H2")
          expiredBoundLicense).checks.map LicenseCheck.message
        = [some "License expired"] :=
  ⟨rfl, rfl, by decide, rfl, rfl⟩

/-- C6 (amended): for an active license bound to non-empty `h1` whose
expiry is unset or not yet past, validating with non-empty `h2 ≠ h1`
fails, records exactly one `check_failed` entry with message
"Hardware ID mismatch", leaves the binding unchanged, and persists
nothing. -/
theorem C6_hardware_mismatch (l : License) (now : Int) (h1 h2 : String)
    (hst : l.status = "active") (hb : l.hardware_id = some h1)
    (h1ne : h1 ≠ "") (h2ne : h2 ≠ "") (hne : h2 ≠ h1)
    (hexp : pastExpiry l now = false) :
    (License.validate_license now (some h2) l).ok = false
    ∧ (License.validate_license now (some h2) l).checks
        = [⟨"check_failed", some h2, some "Hardware ID mismatch"⟩]
    ∧ (License.validate_license now (some h2) l).lic.hardware_id = some h1
    ∧ (License.validate_license now (some h2) l).writes = [] := by
  have hpe : pastExpiry { l with last_checked := some now } now
      = pastExpiry l now := by simp [pastExpiry]
  simp only [License.validate_license]
  split_ifs with ha hb2 hc
  · rw [hpe, hexp] at ha
    exact absurd ha (by simp)
  · exact absurd hst (by simpa using hb2)
  · exact ⟨rfl, rfl, by simpa using hb, rfl⟩
  · exfalso
    apply hc
    simp [truthyStr, hb, h2ne, h1ne, hne]

/-- C6 (witness): the amended theorem at an unexpired active license
bound to `"H1"`, validated with `"H2"`. -/
theorem C6_witness :
    (License.validate_license 3 (some "H2")
        { sampleLicense with status := "active", hardware_id := some "H1" }
        ).ok = false
    ∧ (License.validate_license 3 (some "H2")
        { sampleLicense with status := "active", hardware_id := some "H1" }
        ).checks
        = [⟨"check_failed", some "H2", some "Hardware ID mismatch"⟩]
    ∧ (License.validate_license 3 (some "H2")
        { sampleLicense with status := "active", hardware_id := some "H1" }
        ).lic.hardware_id = some "H1"
    ∧ (License.validate_license 3 (some "H2")
        { sampleLicense with status := "active", hardware_id := some "H1" }
        ).writes = [] :=
  C6_hardware_mismatch
    { sampleLicense with status := "active", hardware_id := some "H1" }
    3 "H1" "H2" rfl rfl (by decide) (by decide) (by decide) rfl

/-- C7: two-layer revoke asymmetry.  The entity transition
`License.revoke` returns `True` and appends one `revoked` audit entry on
every license, including one it has just revoked (two calls give status
`revoked` and one entry each), while the Service operation on an
already-revoked license returns a failure result "License is already
revoked" without invoking the entity transition (no write, no audit
entry). -/
theorem C7_revoke_two_layer (l : License) (now now2 : Int)
    (reason : Option String) :
    (License.revoke now l).ok = true
    ∧ (License.revoke now l).checks = [⟨"revoked", none, none⟩]
    ∧ (License.revoke now l).lic.status = "revoked"
    ∧ (License.revoke now2 (License.revoke now l).lic).ok = true
    ∧ (License.revoke now2 (License.revoke now l).lic).lic.status
        = "revoked"
    ∧ (License.revoke now2 (License.revoke now l).lic).checks
        = [⟨"revoked", none, none⟩]
    ∧ (LicenseService.revoke_license now
        (some ({ l with status := "revoked" } : License)) reason).res
        = { success := false, message := "License is already revoked" }
    ∧ (LicenseService.revoke_license now
        (some ({ l with status := "revoked" } : License)) reason).checks
        = []
    ∧ (LicenseService.revoke_license now
        (some ({ l with status := "revoked" } : License)) reason).writes
        = [] := by
  have hs1 : (License.revoke now l).lic.status = "revoked" := by
    simp only [License.revoke]
    exact save_revoked now _ rfl
  have hs2 : (License.revoke now2 (License.revoke now l).lic).lic.status
      = "revoked" := by
    simp only [License.revoke]
    exact save_revoked now2 _ rfl
  refine ⟨rfl, rfl, hs1, rfl, hs2, rfl, ?_, ?_, ?_⟩ <;>
    simp [LicenseService.revoke_license]

/-- C8 (counterexample): `create_license` with an unresolvable license
type id RAISES (`raise ValueError(...)` in the source, `Except.error`
here) instead of returning a structured failure result — contradicting
the claim that every Service operation surfaces NotFound as a result
value. -/
theorem C8_counterexample :
    LicenseService.create_license 0 7 none none (List.replicate 32 0) 1 none
      = Except.error "License type with ID 7 does not exist" := rfl

/-- C8 (amended): every Service operation EXCEPT create surfaces an
unknown key as a structured failure result ("License key does not
exist", or the format-check failure for `validate`), while
`create_license` raises a ValueError naming the unknown license type
id. -/
theorem C8_notfound_structured (now : Int) (ltid : Nat)
    (pfx : Option (List Char)) (digest : List Nat) (ma : Int)
    (notes : Option String) (key : List Char) (hw : Option String)
    (reason : Option String) :
    LicenseService.create_license now ltid none pfx digest ma notes
      = Except.error
          ("License type with ID " ++ toString ltid ++ " does not exist")
    ∧ (LicenseService.validate_license now key none hw).res.valid = false
    ∧ (LicenseService.activate_license now none hw).res
        = { success := false, message := "License key does not exist" }
    ∧ (LicenseService.deactivate_license now none).res
        = { success := false, message := "License key does not exist" }
    ∧ (LicenseService.revoke_license now none reason).res
        = { success := false, message := "License key does not exist" }
    ∧ (LicenseService.get_license_info none).res
        = { success := false, message := "License key does not exist" } := by
  refine ⟨rfl, ?_, rfl, rfl, rfl, rfl⟩
  simp only [LicenseService.validate_license]
  split_ifs <;> rfl

/-- C9 (counterexample): before activation the save-time default is
`timezone.now() + duration_days`, NOT `created_at + duration_days`: a
license created at time 0 with a 30-day type, saved at time 5, gets
`expires_at = 35`, not `30`. -/
theorem C9_counterexample :
    sampleLicense.activation_date = none
    ∧ sampleLicense.expires_at = none
    ∧ (License.save 5 sampleLicense).expires_at = some 35
    ∧ some (35 : Int)
        ≠ some (sampleLicense.created_at
            + sampleLicense.license_type.duration_days) :=
  ⟨rfl, rfl, rfl, by decide⟩

/-- C9 (amended): persisting a License with `expires_at` unset computes
it as `activation_date + duration_days` when activated, and as
(save-time) `now + duration_days` — not `created_at + duration_days` —
when not yet activated. -/
theorem C9_save_expiry_default (l : License) (now : Int)
    (he : l.expires_at = none) :
    (License.save now l).expires_at
      = some ((match l.activation_date with
          | some ad => ad
          | none => now) + l.license_type.duration_days) := by
  rw [save_expires, he]

/-- C9 (witness): the amended theorem at the sample pending license saved
at time 5 (duration 30 ⇒ expiry 35). -/
theorem C9_witness :
    (License.save 5 sampleLicense).expires_at = some 35 := by
  have h := C9_save_expiry_default sampleLicense 5 rfl
  simpa using h

/-- C10: the Service's internal "Failed to activate license" branch is
unreachable: whenever the license's status is none of `active`,
`revoked`, `expired` (the statuses the Service rejects first), the
entity `activate` returns `True`, and the Service returns a success
result. -/
theorem C10_activate_no_internal_failure (l : License) (now : Int)
    (hw : Option String)
    (h1 : l.status ≠ "active") (h2 : l.status ≠ "revoked")
    (h3 : l.status ≠ "expired") :
    (License.activate now hw l).ok = true
    ∧ (LicenseService.activate_license now (some l) hw).res.success = true
    ∧ (LicenseService.activate_license now (some l) hw).res.message
        = "License activated successfully" := by
  have hent : (License.activate now hw l).ok = true := by
    simp only [License.activate]
    rw [if_pos h2]
  refine ⟨hent, ?_, ?_⟩ <;>
  · simp only [LicenseService.activate_license]
    rw [if_neg h1, if_neg h2, if_neg h3, if_neg (not_not_intro hent)]

/-- C10 (witness): activating the pending sample license through the
Service succeeds. -/
theorem C10_witness :
    (License.activate 5 none sampleLicense).ok = true
    ∧ (LicenseService.activate_license 5 (some sampleLicense) none
        ).res.success = true
    ∧ (LicenseService.activate_license 5 (some sampleLicense) none
        ).res.message = "License activated successfully" :=
  C10_activate_no_internal_failure sampleLicense 5 none (by decide)
    (by decide) (by decide)
